import Mathlib

/-!
Verification of the layer-wrapper module (`keras/layers/wrappers.py`) of this
repository: the `Wrapper` base class, `TimeDistributed` and `Bidirectional`.

The Python source is shallowly embedded:
* static shapes become `Shape := List (Option Nat)` (entry `none` models a
  dynamic/unknown axis, Python `None`);
* the inner layer's own shape inference, an external collaborator, becomes an
  arbitrary function parameter;
* tensors become rank-indexed nested lists of rationals (`Tensor`); the
  backend primitives `K.concatenate`, `K.prod(axis=0)` and `K.reverse(x, 1)`
  are embedded over them with keras's documented semantics (concatenation
  along the last axis by default);
* layer objects live in an explicit heap (`Heap`), so that the in-place
  mutation performed by `Bidirectional.__init__` on the template layer it
  receives is observable, and Python exceptions become `Except` values.
-/

/-- One axis of a static shape: `none` models Python `None` (unknown size). -/
abbrev Dim := Option Nat

/-- A static shape, as keras stores it: a tuple of optional axis sizes. -/
abbrev Shape := List Dim

/-- Embeds `Bidirectional.get_output_shape_for` (wrappers.py lines 283-291).
`f` is the forward layer's `get_output_shape_for`, an external collaborator.
The result is `none` when the Python code would raise (`shape[-1] *= 2` on an
empty shape or on a `None` last axis) or fall off the end of the `elif` chain
(impossible for the merge modes accepted by the constructor). A merge-mode
`None` result is the two-element list `[shape, shape]` built by `[...] * 2`. -/
def Bidirectional.get_output_shape_for (f : Shape → Shape) (merge_mode : Option String)
    (input_shape : Shape) : Option (Shape ⊕ List Shape) :=
  if merge_mode = some "sum" ∨ merge_mode = some "ave" ∨ merge_mode = some "mul" then
    some (Sum.inl (f input_shape))
  else if merge_mode = some "concat" then
    match (f input_shape).getLast? with
    | some (some n) => some (Sum.inl ((f input_shape).dropLast ++ [some (n * 2)]))
    | _ => none
  else if merge_mode = none then
    some (Sum.inr [f input_shape, f input_shape])
  else
    none

/-- C1: for every input shape `s` and forward-layer shape inference `f`,
`Bidirectional.get_output_shape_for` returns the forward layer's inferred
shape for merge modes `sum`, `ave` and `mul`; for `concat` it returns that
shape with the last axis size doubled (stated for shapes whose last axis is a
known size `n`, the only case in which the Python code does not raise); and
for merge mode `None` it returns the list of two copies of the forward
layer's inferred shape. -/
theorem c1_bidirectional_output_shape (f : Shape → Shape) (s : Shape) :
    (Bidirectional.get_output_shape_for f (some "sum") s = some (Sum.inl (f s))
      ∧ Bidirectional.get_output_shape_for f (some "ave") s = some (Sum.inl (f s))
      ∧ Bidirectional.get_output_shape_for f (some "mul") s = some (Sum.inl (f s)))
    ∧ (∀ t : Shape, ∀ n : Nat, f s = t ++ [some n] →
        Bidirectional.get_output_shape_for f (some "concat") s
          = some (Sum.inl (t ++ [some (n * 2)])))
    ∧ Bidirectional.get_output_shape_for f none s = some (Sum.inr [f s, f s]) := by
  refine ⟨⟨?_, ?_, ?_⟩, ?_, ?_⟩
  · simp [Bidirectional.get_output_shape_for]
  · simp [Bidirectional.get_output_shape_for]
  · simp [Bidirectional.get_output_shape_for]
  · intro t n hf
    simp [Bidirectional.get_output_shape_for, hf, List.getLast?_concat, List.dropLast_concat]
  · simp [Bidirectional.get_output_shape_for]

/-- C1 witness: the theorem instantiated at a concrete forward shape function
(mapping every shape to `(None, 7)`, a batch axis and 7 units) and the input
shape `(None, 5, 3)`; in particular the `concat` hypothesis is discharged at
`t = [none]`, `n = 7`. -/
theorem c1_bidirectional_output_shape_witness :
    (fun _ : Shape => ([none, some 7] : Shape)) [none, some 5, some 3] = [none] ++ [some 7]
    ∧ Bidirectional.get_output_shape_for (fun _ => [none, some 7]) (some "concat")
        [none, some 5, some 3] = some (Sum.inl ([none] ++ [some (7 * 2)])) :=
  ⟨rfl, (c1_bidirectional_output_shape (fun _ => [none, some 7])
      [none, some 5, some 3]).2.1 [none] 7 rfl⟩

/-- Embeds `TimeDistributed.get_output_shape_for` (wrappers.py lines 143-162).
The Python method accepts either a single shape or a list of shapes, modelled
by the sum type; `F` is the inner layer's `get_output_shape_for`, which
likewise receives either a bare child shape or a list of child shapes.
Python indexing that would raise `IndexError` (rank < 2 input, empty inner
result) is modelled with `getD`; every claim about this function restricts to
rank >= 3 inputs, where the `getD` defaults are never taken on the input
side. `max` of the (then all-known) timestep sizes is `foldr max 0`, which
agrees with Python `max` on nonempty lists. -/
def TimeDistributed.get_output_shape_for (F : Shape ⊕ List Shape → Shape) :
    Shape ⊕ List Shape → Shape
  | Sum.inr shapes =>
    let all_timesteps : List Dim := shapes.map (fun s => s.getD 1 none)
    let timesteps : Dim :=
      if none ∈ all_timesteps then none
      else some ((all_timesteps.filterMap id).foldr max 0)
    let child_input_shape : List Shape := shapes.map (fun s => s.getD 0 none :: s.drop 2)
    let child_output_shape := F (Sum.inr child_input_shape)
    child_output_shape.getD 0 none :: timesteps :: child_output_shape.drop 1
  | Sum.inl s =>
    let child_input_shape : Shape := s.getD 0 none :: s.drop 2
    let timesteps : Dim := s.getD 1 none
    let child_output_shape := F (Sum.inl child_input_shape)
    child_output_shape.getD 0 none :: timesteps :: child_output_shape.drop 1

theorem filterMap_id_of_no_none (l : List Dim) (h : ¬ none ∈ l) :
    l.filterMap id = l.map (fun d => d.getD 0) := by
  induction l with
  | nil => rfl
  | cons x xs ih =>
    cases x with
    | none => exact absurd (List.mem_cons_self _ _) h
    | some v =>
      simp only [List.mem_cons] at h
      push_neg at h
      simp [List.filterMap_cons, ih h.2]

/-- C2: `TimeDistributed.get_output_shape_for` on a single shape of rank >= 3
keeps the input's axis 1 at axis 1 and, when the inner layer's shape
inference preserves the batch axis of the derived child shape (the standard
layer contract), keeps the input's axis 0 at axis 0.  On a list of shapes of
rank >= 3, the output's axis 1 is `None` when any input's sequence axis is
unknown and otherwise the maximum sequence length across the inputs, axis 0
is the head of the inner layer's inference on the child shapes, and the axes
from 2 on are that inference's axes from 1 on, where each child shape is the
input shape with axis 1 dropped. -/
theorem c2_timedistributed_output_shape (F : Shape ⊕ List Shape → Shape)
    (a b : Dim) (rest : Shape) (hrank : 1 ≤ rest.length)
    (hF : (F (Sum.inl (a :: rest))).getD 0 none = a)
    (shapes : List Shape) (hne : shapes ≠ []) (hr : ∀ s ∈ shapes, 3 ≤ s.length) :
    ((TimeDistributed.get_output_shape_for F (Sum.inl (a :: b :: rest)))[0]? = some a
      ∧ (TimeDistributed.get_output_shape_for F (Sum.inl (a :: b :: rest)))[1]? = some b)
    ∧ ((TimeDistributed.get_output_shape_for F (Sum.inr shapes))[1]?
         = some (if shapes.any (fun s => (s.getD 1 none).isNone) then none
                 else some ((shapes.map (fun s => (s.getD 1 none).getD 0)).foldr max 0))
       ∧ (TimeDistributed.get_output_shape_for F (Sum.inr shapes))[0]?
           = some ((F (Sum.inr (shapes.map (fun s => s.take 1 ++ s.drop 2)))).getD 0 none)
       ∧ (TimeDistributed.get_output_shape_for F (Sum.inr shapes)).drop 2
           = (F (Sum.inr (shapes.map (fun s => s.take 1 ++ s.drop 2)))).drop 1) := by
  have hchild : shapes.map (fun s => s.getD 0 none :: s.drop 2)
      = shapes.map (fun s => s.take 1 ++ s.drop 2) := by
    apply List.map_congr_left
    intro s hs
    have h3 := hr s hs
    match s, h3 with
    | x :: y :: z, _ => simp [List.getD]
  have key : (if none ∈ shapes.map (fun s => s.getD 1 none) then (none : Dim)
        else some (((shapes.map (fun s => s.getD 1 none)).filterMap id).foldr max 0))
      = (if shapes.any (fun s => (s.getD 1 none).isNone) then none
        else some ((shapes.map (fun s => (s.getD 1 none).getD 0)).foldr max 0)) := by
    by_cases hnn : none ∈ shapes.map (fun s => s.getD 1 none)
    · have hany : shapes.any (fun s => (s.getD 1 none).isNone) = true := by
        rcases List.mem_map.mp hnn with ⟨s, hs, hsome⟩
        exact List.any_eq_true.mpr ⟨s, hs, by rw [hsome]; rfl⟩
      rw [if_pos hnn, hany]
      simp
    · have hany : shapes.any (fun s => (s.getD 1 none).isNone) = false := by
        apply List.any_eq_false.mpr
        intro s hs
        cases hd : s.getD 1 none with
        | none => exact absurd (List.mem_map.mpr ⟨s, hs, hd⟩) hnn
        | some v => simp [hd]
      rw [if_neg hnn, hany]
      simp only [Bool.false_eq_true, if_false]
      rw [filterMap_id_of_no_none _ hnn, List.map_map]
      rfl
  have hFq : (F (Sum.inl (a :: rest)))[0]?.getD none = a := by
    simpa [List.getD] using hF
  constructor
  · constructor
    · simp [TimeDistributed.get_output_shape_for, List.getD]
      exact hFq
    · simp [TimeDistributed.get_output_shape_for, List.getD]
  · refine ⟨?_, ?_, ?_⟩
    · simp only [TimeDistributed.get_output_shape_for, List.getElem?_cons_succ,
        List.getElem?_cons_zero]
      exact congrArg some key
    · simp only [TimeDistributed.get_output_shape_for, List.getElem?_cons_zero]
      rw [hchild]
    · simp only [TimeDistributed.get_output_shape_for]
      rw [hchild]
      rfl

/-- C2 witness: the theorem instantiated at an inner shape inference that
maps the single child shape `(None, 16)` (and any list of child shapes) to
`(None, 8)`, single input shape `(None, 10, 16)`, and the shape list
`[(None, 10, 16), (None, 4, 16)]`; all hypotheses are discharged concretely,
and the single-shape conclusion gives the example output `(None, 10, 8)`. -/
theorem c2_timedistributed_output_shape_witness :
    (1 ≤ ([some 16] : Shape).length
      ∧ ((fun _ : Shape ⊕ List Shape => ([none, some 8] : Shape))
          (Sum.inl [none, some 16])).getD 0 none = none
      ∧ ([[none, some 10, some 16], [none, some 4, some 16]] : List Shape) ≠ []
      ∧ ∀ s ∈ ([[none, some 10, some 16], [none, some 4, some 16]] : List Shape),
          3 ≤ s.length)
    ∧ ((TimeDistributed.get_output_shape_for (fun _ => [none, some 8])
          (Sum.inl [none, some 10, some 16]))[0]? = some none
        ∧ (TimeDistributed.get_output_shape_for (fun _ => [none, some 8])
            (Sum.inl [none, some 10, some 16]))[1]? = some (some 10))
    ∧ ((TimeDistributed.get_output_shape_for (fun _ => [none, some 8])
          (Sum.inr [[none, some 10, some 16], [none, some 4, some 16]]))[1]?
         = some (if ([[none, some 10, some 16], [none, some 4, some 16]] : List Shape).any
                      (fun s => (s.getD 1 none).isNone) then none
                 else some ((([[none, some 10, some 16], [none, some 4, some 16]] :
                      List Shape).map (fun s => (s.getD 1 none).getD 0)).foldr max 0))
       ∧ (TimeDistributed.get_output_shape_for (fun _ => [none, some 8])
            (Sum.inr [[none, some 10, some 16], [none, some 4, some 16]]))[0]?
           = some (((fun _ : Shape ⊕ List Shape => ([none, some 8] : Shape))
               (Sum.inr (([[none, some 10, some 16], [none, some 4, some 16]] :
                 List Shape).map (fun s => s.take 1 ++ s.drop 2)))).getD 0 none)
       ∧ (TimeDistributed.get_output_shape_for (fun _ => [none, some 8])
            (Sum.inr [[none, some 10, some 16], [none, some 4, some 16]])).drop 2
           = ((fun _ : Shape ⊕ List Shape => ([none, some 8] : Shape))
               (Sum.inr (([[none, some 10, some 16], [none, some 4, some 16]] :
                 List Shape).map (fun s => s.take 1 ++ s.drop 2)))).drop 1) :=
  ⟨⟨by decide, rfl, by decide, by decide⟩,
    (c2_timedistributed_output_shape (fun _ => [none, some 8]) none (some 10) [some 16]
      (by decide) rfl [[none, some 10, some 16], [none, some 4, some 16]]
      (by decide) (by decide)).1,
    (c2_timedistributed_output_shape (fun _ => [none, some 8]) none (some 10) [some 16]
      (by decide) rfl [[none, some 10, some 16], [none, some 4, some 16]]
      (by decide) (by decide)).2⟩

/-- The serialized configuration of an inner (recurrent) layer, the dict
returned by `layer.get_config()`.  `name`, `go_backwards`, `stateful` and
`return_sequences` are the fields `Bidirectional.__init__` reads or writes;
`rest` stands for all remaining configuration entries (units, activation,
...), which the wrapper never touches. -/
structure LayerConfig where
  name : String
  go_backwards : Bool
  stateful : Bool
  return_sequences : Bool
  rest : List (String × String)
deriving DecidableEq, Repr

/-- An inner layer object.  `class_name` is `layer.__class__.__name__`;
`config` holds the attributes that `get_config` serializes (setting
`layer.name` in place is modelled as updating `config.name`);
`initial_weights` and `weights` model the weight lists touched by
`Bidirectional.__init__` and `set_weights`, with weight tensors as opaque
`Nat` identifiers. -/
structure LayerObj where
  class_name : String
  config : LayerConfig
  initial_weights : Option (List Nat)
  weights : List Nat
deriving DecidableEq, Repr

/-- Modelled from the spec: the consumed capability
`Layer.get_config()/from_config(config)` of the base layer framework (the
layer classes themselves are outside this module) - `from_config`
reconstructs a layer of the given class carrying exactly the given
configuration, with no initial weights and fresh (empty) weight storage. -/
def LayerObj.from_config (cn : String) (c : LayerConfig) : LayerObj :=
  { class_name := cn, config := c, initial_weights := none, weights := [] }

/-- A heap of layer objects; a layer reference is an index into it.  Python
object identity and in-place mutation are modelled by indexing into this
heap. -/
abbrev Heap := List LayerObj

/-- Placeholder object returned for out-of-range references; all theorems
restrict to in-range references. -/
def dummyLayerObj : LayerObj :=
  LayerObj.from_config "" ⟨"", false, false, false, []⟩

/-- Reading a reference.  Out-of-range references return the placeholder. -/
def Heap.get (h : Heap) (r : Nat) : LayerObj :=
  h.getD r dummyLayerObj

/-- The wrapper state built by `Bidirectional.__init__`: references to the
two inner layers, the merge mode, the `stateful` / `return_sequences` flags
copied from the template, and `self.layer` as set by `Wrapper.__init__`. -/
structure Bidirectional where
  forward_ref : Nat
  backward_ref : Nat
  merge_mode : Option String
  stateful : Bool
  return_sequences : Bool
  layer_ref : Nat
deriving DecidableEq, Repr

/-- The error message raised for an invalid merge mode
(wrappers.py lines 255-258). -/
def errInvalidMerge : String :=
  "Invalid merge mode. Merge mode should be one of \x7b\"sum\", \"mul\", \"ave\", \"concat\", None\x7d"

/-- The state of the template object after `Bidirectional.__init__`
(wrappers.py lines 259-269): it is itself the forward layer, renamed in
place with the `forward_` prefix, and - when a nonempty weight list is
supplied (the Python truthiness test `if weights:` skips both `None` and the
empty list) - its `initial_weights` are set to the first `len(weights) // 2`
tensors. -/
def Bidirectional.forwardObj (t : LayerObj) (weights : Option (List Nat)) : LayerObj :=
  let fwd1 : LayerObj :=
    { t with config := { t.config with name := "forward_" ++ t.config.name } }
  match weights with
  | some w =>
    if w ≠ [] then { fwd1 with initial_weights := some (w.take (w.length / 2)) } else fwd1
  | none => fwd1

/-- The backward layer object built by `Bidirectional.__init__` (wrappers.py
lines 260-269): a fresh object built by `layer.__class__.from_config` from
the template's configuration with `go_backwards` flipped, renamed with the
`backward_` prefix, and - for a nonempty supplied weight list - given the
remaining `len(weights) - len(weights) // 2` tensors as initial weights. -/
def Bidirectional.backwardObj (t : LayerObj) (weights : Option (List Nat)) : LayerObj :=
  let bconfig : LayerConfig := { t.config with go_backwards := !t.config.go_backwards }
  let bwd0 : LayerObj := LayerObj.from_config t.class_name bconfig
  let bwd1 : LayerObj :=
    { bwd0 with config := { bwd0.config with name := "backward_" ++ bwd0.config.name } }
  match weights with
  | some w =>
    if w ≠ [] then { bwd1 with initial_weights := some (w.drop (w.length / 2)) } else bwd1
  | none => bwd1

/-- Embeds `Bidirectional.__init__` (wrappers.py lines 254-273) over the
heap: `tref` is the reference to the template layer argument.  The forward
layer is the template object itself (`self.forward_layer = layer`), mutated
in its heap slot; the backward layer is a fresh object appended to the heap
at address `h.length`; `self.layer` (set by `Wrapper.__init__` on the
`layer` argument, which aliases the forward layer) is `tref`.  The net heap
effect of the source's statement sequence is one update of the template slot
plus one append. -/
def Bidirectional.init (h : Heap) (tref : Nat) (merge_mode : Option String)
    (weights : Option (List Nat)) : Except String (Bidirectional × Heap) :=
  if merge_mode ∉ ([some "sum", some "mul", some "ave", some "concat", none] :
      List (Option String)) then
    Except.error errInvalidMerge
  else
    let t := Heap.get h tref
    Except.ok ({ forward_ref := tref, backward_ref := h.length,
                 merge_mode := merge_mode, stateful := t.config.stateful,
                 return_sequences := t.config.return_sequences, layer_ref := tref },
               (h.set tref (Bidirectional.forwardObj t weights))
                 ++ [Bidirectional.backwardObj t weights])

/-- Embeds `Bidirectional.set_weights` (wrappers.py lines 278-281): the first
`len(weights) // 2` tensors are assigned to the forward layer, the rest to
the backward layer. -/
def Bidirectional.set_weights (h : Heap) (b : Bidirectional) (w : List Nat) : Heap :=
  let h1 := h.set b.forward_ref { Heap.get h b.forward_ref with weights := w.take (w.length / 2) }
  h1.set b.backward_ref { Heap.get h1 b.backward_ref with weights := w.drop (w.length / 2) }

theorem heap_get_set_append_self (h : Heap) (i : Nat) (o o2 : LayerObj)
    (hi : i < h.length) : Heap.get ((h.set i o) ++ [o2]) i = o := by
  have hlen : i < (h.set i o).length := by simpa using hi
  simp [Heap.get, List.getD, List.getElem?_append_left hlen, List.getElem?_set_eq_of_lt o hi]

theorem heap_get_append_last (h : Heap) (o : LayerObj) : Heap.get (h ++ [o]) h.length = o := by
  simp [Heap.get, List.getD, List.getElem?_concat_length]

theorem heap_get_set_ne (h : Heap) (i j : Nat) (o : LayerObj) (hne : i ≠ j) :
    Heap.get (h.set i o) j = Heap.get h j := by
  simp [Heap.get, List.getD, List.getElem?_set_ne hne]

theorem heap_get_set_self (h : Heap) (i : Nat) (o : LayerObj) (hi : i < h.length) :
    Heap.get (h.set i o) i = o := by
  simp [Heap.get, List.getD, List.getElem?_set_eq_of_lt o hi]

theorem heap_get_set_append_last (h : Heap) (i : Nat) (o o2 : LayerObj) :
    Heap.get ((h.set i o) ++ [o2]) h.length = o2 := by
  have hl : h.length = (h.set i o).length := by simp
  rw [hl, heap_get_append_last]

/-- The `TimeDistributed` wrapper state: `self.layer` only
(`TimeDistributed.__init__`, wrappers.py lines 89-91, stores the layer
unchanged). -/
structure TimeDistributed where
  layer : LayerObj
deriving DecidableEq, Repr

/-- Embeds `TimeDistributed.__init__` (wrappers.py lines 89-91 with
`Wrapper.__init__`, lines 7-10): the inner layer is stored as is. -/
def TimeDistributed.init (layer : LayerObj) : TimeDistributed :=
  { layer := layer }

/-- The serialized form of a `Wrapper` (wrappers.py lines 37-41): the nested
`'layer': \x7b'class_name': ..., 'config': ...\x7d` entry.  The base
`Layer.get_config()` keys of the wrapper itself (an external collaborator)
pass through `from_config` unchanged and are not modelled. -/
structure WrapperConfig where
  layer_class : String
  layer_config : LayerConfig
deriving DecidableEq, Repr

/-- The serialized form of a `Bidirectional` (wrappers.py lines 358-361):
the `Wrapper` entries plus `merge_mode`. -/
structure BidirectionalConfig where
  layer_class : String
  layer_config : LayerConfig
  merge_mode : Option String
deriving DecidableEq, Repr

/-- Embeds `Wrapper.get_config` (wrappers.py lines 37-41) as used by
`TimeDistributed`: serializes the stored inner layer's class and current
configuration. -/
def TimeDistributed.get_config (td : TimeDistributed) : WrapperConfig :=
  { layer_class := td.layer.class_name, layer_config := td.layer.config }

/-- Embeds `Wrapper.from_config` (wrappers.py lines 43-47) for
`TimeDistributed`: rebuilds the inner layer from the nested config via
`layer_from_config` and constructs the wrapper around it. -/
def TimeDistributed.from_config (c : WrapperConfig) : TimeDistributed :=
  TimeDistributed.init (LayerObj.from_config c.layer_class c.layer_config)

/-- Embeds `Bidirectional.get_config` (wrappers.py lines 358-361) on top of
`Wrapper.get_config`: the nested layer entry serializes `self.layer`, which
`Wrapper.__init__` set to the (renamed) template object, and `merge_mode` is
added. -/
def Bidirectional.get_config (h : Heap) (b : Bidirectional) : BidirectionalConfig :=
  { layer_class := (Heap.get h b.layer_ref).class_name,
    layer_config := (Heap.get h b.layer_ref).config,
    merge_mode := b.merge_mode }

/-- Embeds `Wrapper.from_config` (wrappers.py lines 43-47) for
`Bidirectional`: the inner layer is rebuilt from the nested config into a
fresh heap and `Bidirectional.__init__` runs on it with the serialized merge
mode (`weights` is not serialized, so none are passed). -/
def Bidirectional.from_config (c : BidirectionalConfig) :
    Except String (Bidirectional × Heap) :=
  Bidirectional.init [LayerObj.from_config c.layer_class c.layer_config] 0 c.merge_mode none

/-- C4: `Bidirectional.__init__` fails, with the `ValueError` whose message
lists the allowed values (`errInvalidMerge`), exactly when the merge mode is
not one of `sum`, `mul`, `ave`, `concat`, `None`; no other construction
input produces an error. -/
theorem c4_invalid_merge_mode_error (h : Heap) (tref : Nat) (merge_mode : Option String)
    (weights : Option (List Nat)) :
    (Bidirectional.init h tref merge_mode weights = Except.error errInvalidMerge
      ↔ merge_mode ∉ ([some "sum", some "mul", some "ave", some "concat", none] :
          List (Option String)))
    ∧ (∀ e : String, Bidirectional.init h tref merge_mode weights = Except.error e →
        e = errInvalidMerge) := by
  by_cases hm : merge_mode ∈ ([some "sum", some "mul", some "ave", some "concat", none] :
      List (Option String))
  · constructor
    · simp [Bidirectional.init, hm]
    · intro e he
      simp [Bidirectional.init, hm] at he
  · constructor
    · simp [Bidirectional.init, hm]
    · intro e he
      simp [Bidirectional.init, hm] at he
      exact he.symm

/-- C4 witness: with merge mode `"average"` (not an allowed value) the
constructor fails with the listing error on a concrete one-layer heap, and
with merge mode `"concat"` it does not produce that error. -/
theorem c4_invalid_merge_mode_error_witness :
    Bidirectional.init [dummyLayerObj] 0 (some "average") none = Except.error errInvalidMerge
    ∧ Bidirectional.init [dummyLayerObj] 0 (some "concat") none ≠
        Except.error errInvalidMerge :=
  ⟨(c4_invalid_merge_mode_error [dummyLayerObj] 0 (some "average") none).1.mpr (by decide),
   fun hc => by
    have := (c4_invalid_merge_mode_error [dummyLayerObj] 0 (some "concat") none).1.mp hc
    exact this (by decide)⟩

theorem bidirectional_init_ok (h : Heap) (tref : Nat) (mm : Option String)
    (w : Option (List Nat))
    (hm : mm ∈ ([some "sum", some "mul", some "ave", some "concat", none] :
      List (Option String))) :
    Bidirectional.init h tref mm w
      = Except.ok ({ forward_ref := tref, backward_ref := h.length, merge_mode := mm,
                     stateful := (Heap.get h tref).config.stateful,
                     return_sequences := (Heap.get h tref).config.return_sequences,
                     layer_ref := tref },
                   (h.set tref (Bidirectional.forwardObj (Heap.get h tref) w))
                     ++ [Bidirectional.backwardObj (Heap.get h tref) w]) := by
  simp [Bidirectional.init, hm]

/-- C5: weight splitting.  At construction, a nonempty explicit weight list
`w` is split so that the forward layer's initial weights followed by the
backward layer's initial weights are exactly `w`, with the forward part of
length `len(w) // 2` (hence the backward part of length
`len(w) - len(w) // 2`), in order.  `Bidirectional.set_weights` splits any
weight list the same way into the two layers' weight stores. -/
theorem c5_weight_split (h : Heap) (tref : Nat) (mm : Option String)
    (w : List Nat) (b : Bidirectional) (hw : w ≠ []) (htref : tref < h.length)
    (hm : mm ∈ ([some "sum", some "mul", some "ave", some "concat", none] :
      List (Option String)))
    (hf : b.forward_ref < h.length) (hb : b.backward_ref < h.length)
    (hfb : b.forward_ref ≠ b.backward_ref) :
    (∃ b1 : Bidirectional, ∃ h1 : Heap,
      Bidirectional.init h tref mm (some w) = Except.ok (b1, h1)
      ∧ ∃ fw bw : List Nat,
          (Heap.get h1 b1.forward_ref).initial_weights = some fw
          ∧ (Heap.get h1 b1.backward_ref).initial_weights = some bw
          ∧ fw ++ bw = w ∧ fw.length = w.length / 2)
    ∧ (∃ fw bw : List Nat,
        (Heap.get (Bidirectional.set_weights h b w) b.forward_ref).weights = fw
        ∧ (Heap.get (Bidirectional.set_weights h b w) b.backward_ref).weights = bw
        ∧ fw ++ bw = w ∧ fw.length = w.length / 2) := by
  have hlen2 : w.length / 2 ≤ w.length := Nat.div_le_self _ _
  have hlentake : (w.take (w.length / 2)).length = w.length / 2 := by
    simp [List.length_take, Nat.min_eq_left hlen2]
  constructor
  · refine ⟨_, _, bidirectional_init_ok h tref mm (some w) hm, ?_⟩
    refine ⟨w.take (w.length / 2), w.drop (w.length / 2), ?_, ?_, ?_, ?_⟩
    · dsimp only
      rw [heap_get_set_append_self _ _ _ _ htref]
      simp [Bidirectional.forwardObj, hw]
    · dsimp only
      rw [heap_get_set_append_last]
      simp [Bidirectional.backwardObj, hw]
    · exact List.take_append_drop _ w
    · exact hlentake
  · refine ⟨w.take (w.length / 2), w.drop (w.length / 2), ?_, ?_, ?_, ?_⟩
    · unfold Bidirectional.set_weights
      rw [heap_get_set_ne _ _ _ _ (Ne.symm hfb), heap_get_set_self _ _ _ hf]
    · unfold Bidirectional.set_weights
      have hb1 : b.backward_ref <
          (h.set b.forward_ref { Heap.get h b.forward_ref with
            weights := w.take (w.length / 2) }).length := by
        simpa using hb
      rw [heap_get_set_self _ _ _ hb1, heap_get_set_ne _ _ _ _ hfb]
    · exact List.take_append_drop _ w
    · exact hlentake

/-- C5 witness: a five-tensor weight list `[1, 2, 3, 4, 5]` on a one-layer
heap with merge mode `concat`: the forward layer receives `[1, 2]`
(`5 // 2 = 2` tensors) and the backward layer `[3, 4, 5]`, both at
construction (initial weights) and through `set_weights` on a wrapper whose
forward layer is at 0 and backward layer at 1. -/
theorem c5_weight_split_witness :
    (∃ b1 : Bidirectional, ∃ h1 : Heap,
      Bidirectional.init [dummyLayerObj, dummyLayerObj] 0 (some "concat")
          (some [1, 2, 3, 4, 5]) = Except.ok (b1, h1)
      ∧ ∃ fw bw : List Nat,
          (Heap.get h1 b1.forward_ref).initial_weights = some fw
          ∧ (Heap.get h1 b1.backward_ref).initial_weights = some bw
          ∧ fw ++ bw = [1, 2, 3, 4, 5] ∧ fw.length = [1, 2, 3, 4, 5].length / 2)
    ∧ (∃ fw bw : List Nat,
        (Heap.get (Bidirectional.set_weights [dummyLayerObj, dummyLayerObj]
            { forward_ref := 0, backward_ref := 1, merge_mode := some "concat",
              stateful := false, return_sequences := false, layer_ref := 0 }
            [1, 2, 3, 4, 5]) 0).weights = fw
        ∧ (Heap.get (Bidirectional.set_weights [dummyLayerObj, dummyLayerObj]
            { forward_ref := 0, backward_ref := 1, merge_mode := some "concat",
              stateful := false, return_sequences := false, layer_ref := 0 }
            [1, 2, 3, 4, 5]) 1).weights = bw
        ∧ fw ++ bw = [1, 2, 3, 4, 5] ∧ fw.length = [1, 2, 3, 4, 5].length / 2) :=
  c5_weight_split [dummyLayerObj, dummyLayerObj] 0 (some "concat") [1, 2, 3, 4, 5]
    { forward_ref := 0, backward_ref := 1, merge_mode := some "concat",
      stateful := false, return_sequences := false, layer_ref := 0 }
    (by decide) (by decide) (by decide) (by decide) (by decide) (by decide)

theorem forwardObj_config (t : LayerObj) (w : Option (List Nat)) :
    (Bidirectional.forwardObj t w).config
      = { t.config with name := "forward_" ++ t.config.name } := by
  unfold Bidirectional.forwardObj
  cases w with
  | none => rfl
  | some l => by_cases hl : l ≠ [] <;> simp [hl]

theorem forwardObj_class (t : LayerObj) (w : Option (List Nat)) :
    (Bidirectional.forwardObj t w).class_name = t.class_name := by
  unfold Bidirectional.forwardObj
  cases w with
  | none => rfl
  | some l => by_cases hl : l ≠ [] <;> simp [hl]

theorem backwardObj_config (t : LayerObj) (w : Option (List Nat)) :
    (Bidirectional.backwardObj t w).config
      = { t.config with
          go_backwards := !t.config.go_backwards,
          name := "backward_" ++ t.config.name } := by
  unfold Bidirectional.backwardObj
  cases w with
  | none => rfl
  | some l => by_cases hl : l ≠ [] <;> simp [hl, LayerObj.from_config]

theorem backwardObj_class (t : LayerObj) (w : Option (List Nat)) :
    (Bidirectional.backwardObj t w).class_name = t.class_name := by
  unfold Bidirectional.backwardObj
  cases w with
  | none => rfl
  | some l => by_cases hl : l ≠ [] <;> simp [hl, LayerObj.from_config]

theorem backwardObj_weights (t : LayerObj) (w : Option (List Nat)) :
    (Bidirectional.backwardObj t w).weights = [] := by
  unfold Bidirectional.backwardObj
  cases w with
  | none => rfl
  | some l => by_cases hl : l ≠ [] <;> simp [hl, LayerObj.from_config]

theorem forward_prefix_ne (n : String) : "forward_" ++ n ≠ n := by
  intro hcon
  have hlen := congrArg String.length hcon
  rw [String.length_append] at hlen
  have h8 : ("forward_" : String).length = 8 := rfl
  rw [h8] at hlen
  omega

/-- C8: for every valid merge mode, `Bidirectional.__init__` produces two
distinct layer objects whose configurations relate to the template's as
claimed: the forward layer keeps the template's `go_backwards` flag, the
backward layer carries its negation, their names are the template's name
with `forward_` / `backward_` prefixes, and the configurations agree on
everything else (class, `stateful`, `return_sequences` and the remaining
config entries). -/
theorem c8_bidirectional_clone_config (h : Heap) (tref : Nat) (mm : Option String)
    (w : Option (List Nat)) (htref : tref < h.length)
    (hm : mm ∈ ([some "sum", some "mul", some "ave", some "concat", none] :
      List (Option String))) :
    ∃ b : Bidirectional, ∃ h1 : Heap,
      Bidirectional.init h tref mm w = Except.ok (b, h1)
      ∧ b.forward_ref ≠ b.backward_ref
      ∧ (Heap.get h1 b.forward_ref).config.go_backwards
          = (Heap.get h tref).config.go_backwards
      ∧ (Heap.get h1 b.backward_ref).config.go_backwards
          = !(Heap.get h tref).config.go_backwards
      ∧ (Heap.get h1 b.forward_ref).config.name
          = "forward_" ++ (Heap.get h tref).config.name
      ∧ (Heap.get h1 b.backward_ref).config.name
          = "backward_" ++ (Heap.get h tref).config.name
      ∧ (Heap.get h1 b.forward_ref).config.stateful
          = (Heap.get h1 b.backward_ref).config.stateful
      ∧ (Heap.get h1 b.forward_ref).config.return_sequences
          = (Heap.get h1 b.backward_ref).config.return_sequences
      ∧ (Heap.get h1 b.forward_ref).config.rest
          = (Heap.get h1 b.backward_ref).config.rest
      ∧ (Heap.get h1 b.forward_ref).class_name
          = (Heap.get h1 b.backward_ref).class_name := by
  refine ⟨_, _, bidirectional_init_ok h tref mm w hm, ?_⟩
  dsimp only
  rw [heap_get_set_append_self _ _ _ _ htref, heap_get_set_append_last]
  refine ⟨Nat.ne_of_lt htref, ?_⟩
  simp [forwardObj_config, backwardObj_config, forwardObj_class, backwardObj_class]

/-- C8 witness: the theorem instantiated on a one-layer heap whose template
is named `"lstm"` with `go_backwards = false`, merge mode `concat` and no
explicit weights. -/
theorem c8_bidirectional_clone_config_witness :
    (0 < ([LayerObj.from_config "LSTM" ⟨"lstm", false, false, true, []⟩] : Heap).length
      ∧ (some "concat") ∈ ([some "sum", some "mul", some "ave", some "concat", none] :
          List (Option String)))
    ∧ ∃ b : Bidirectional, ∃ h1 : Heap,
        Bidirectional.init [LayerObj.from_config "LSTM" ⟨"lstm", false, false, true, []⟩]
            0 (some "concat") none = Except.ok (b, h1)
        ∧ b.forward_ref ≠ b.backward_ref
        ∧ (Heap.get h1 b.forward_ref).config.go_backwards
            = (Heap.get [LayerObj.from_config "LSTM" ⟨"lstm", false, false, true, []⟩]
                0).config.go_backwards
        ∧ (Heap.get h1 b.backward_ref).config.go_backwards
            = !(Heap.get [LayerObj.from_config "LSTM" ⟨"lstm", false, false, true, []⟩]
                0).config.go_backwards
        ∧ (Heap.get h1 b.forward_ref).config.name
            = "forward_" ++ (Heap.get [LayerObj.from_config "LSTM"
                ⟨"lstm", false, false, true, []⟩] 0).config.name
        ∧ (Heap.get h1 b.backward_ref).config.name
            = "backward_" ++ (Heap.get [LayerObj.from_config "LSTM"
                ⟨"lstm", false, false, true, []⟩] 0).config.name
        ∧ (Heap.get h1 b.forward_ref).config.stateful
            = (Heap.get h1 b.backward_ref).config.stateful
        ∧ (Heap.get h1 b.forward_ref).config.return_sequences
            = (Heap.get h1 b.backward_ref).config.return_sequences
        ∧ (Heap.get h1 b.forward_ref).config.rest
            = (Heap.get h1 b.backward_ref).config.rest
        ∧ (Heap.get h1 b.forward_ref).class_name
            = (Heap.get h1 b.backward_ref).class_name :=
  ⟨⟨by decide, by decide⟩,
    c8_bidirectional_clone_config [LayerObj.from_config "LSTM" ⟨"lstm", false, false, true, []⟩]
      0 (some "concat") none (by decide) (by decide)⟩

/-- C10: `Bidirectional.__init__` mutates the template object passed by the
caller: the wrapper's forward layer reference (and `self.layer`) is the very
reference that was passed in, whose name field afterwards carries the
`forward_` prefix and so differs from the name the caller's object had
before construction; only the backward layer lives at a fresh address
(`h.length`, outside the original heap), built from the flipped
configuration with fresh weight storage. -/
theorem c10_bidirectional_template_mutation (h : Heap) (tref : Nat) (mm : Option String)
    (w : Option (List Nat)) (htref : tref < h.length)
    (hm : mm ∈ ([some "sum", some "mul", some "ave", some "concat", none] :
      List (Option String))) :
    ∃ b : Bidirectional, ∃ h1 : Heap,
      Bidirectional.init h tref mm w = Except.ok (b, h1)
      ∧ b.forward_ref = tref
      ∧ b.layer_ref = tref
      ∧ (Heap.get h1 tref).config.name = "forward_" ++ (Heap.get h tref).config.name
      ∧ (Heap.get h1 tref).config.name ≠ (Heap.get h tref).config.name
      ∧ b.backward_ref = h.length
      ∧ b.backward_ref ≠ tref
      ∧ (Heap.get h1 b.backward_ref).config
          = { (Heap.get h tref).config with
              go_backwards := !(Heap.get h tref).config.go_backwards,
              name := "backward_" ++ (Heap.get h tref).config.name }
      ∧ (Heap.get h1 b.backward_ref).weights = [] := by
  refine ⟨_, _, bidirectional_init_ok h tref mm w hm, ?_⟩
  dsimp only
  rw [heap_get_set_append_self _ _ _ _ htref, heap_get_set_append_last]
  refine ⟨rfl, rfl, ?_, ?_, rfl, (Nat.ne_of_lt htref).symm, ?_, ?_⟩
  · rw [forwardObj_config]
  · rw [forwardObj_config]
    exact forward_prefix_ne _
  · rw [backwardObj_config]
  · exact backwardObj_weights _ _

/-- C10 witness: the theorem instantiated on a one-layer heap whose template
is named `"gru"`, with merge mode `sum`: after construction the caller's
object (reference 0) is named `"forward_gru"`. -/
theorem c10_bidirectional_template_mutation_witness :
    (0 < ([LayerObj.from_config "GRU" ⟨"gru", true, false, false, []⟩] : Heap).length
      ∧ (some "sum") ∈ ([some "sum", some "mul", some "ave", some "concat", none] :
          List (Option String)))
    ∧ ∃ b : Bidirectional, ∃ h1 : Heap,
        Bidirectional.init [LayerObj.from_config "GRU" ⟨"gru", true, false, false, []⟩]
            0 (some "sum") none = Except.ok (b, h1)
        ∧ b.forward_ref = 0
        ∧ b.layer_ref = 0
        ∧ (Heap.get h1 0).config.name
            = "forward_" ++ (Heap.get [LayerObj.from_config "GRU"
                ⟨"gru", true, false, false, []⟩] 0).config.name
        ∧ (Heap.get h1 0).config.name
            ≠ (Heap.get [LayerObj.from_config "GRU" ⟨"gru", true, false, false, []⟩]
                0).config.name
        ∧ b.backward_ref = ([LayerObj.from_config "GRU" ⟨"gru", true, false, false, []⟩] :
            Heap).length
        ∧ b.backward_ref ≠ 0
        ∧ (Heap.get h1 b.backward_ref).config
            = { (Heap.get [LayerObj.from_config "GRU" ⟨"gru", true, false, false, []⟩]
                  0).config with
                go_backwards := !(Heap.get [LayerObj.from_config "GRU"
                  ⟨"gru", true, false, false, []⟩] 0).config.go_backwards,
                name := "backward_" ++ (Heap.get [LayerObj.from_config "GRU"
                  ⟨"gru", true, false, false, []⟩] 0).config.name }
        ∧ (Heap.get h1 b.backward_ref).weights = [] :=
  ⟨⟨by decide, by decide⟩,
    c10_bidirectional_template_mutation
      [LayerObj.from_config "GRU" ⟨"gru", true, false, false, []⟩]
      0 (some "sum") none (by decide) (by decide)⟩

/-- C3 counterexample: take a template layer named `"x"` and build
`Bidirectional(layer, merge_mode='concat')`.  The wrapper's inner layer
(`self.layer`, the renamed template) has config name `"forward_x"`, but
reconstructing via `from_config(get_config(...))` runs `__init__` again on a
layer deserialized with name `"forward_x"`, which is renamed once more: the
reconstructed wrapper's inner layer has config name `"forward_forward_x"`.
The inner layer configurations therefore differ (both from the wrapper's own
inner config and from the template's pre-construction config), refuting the
claim at this input. -/
theorem c3_roundtrip_counterexample :
    (Bidirectional.init [LayerObj.from_config "LSTM" ⟨"x", false, false, false, []⟩]
        0 (some "concat") none).toOption.map
        (fun p => (Heap.get p.2 p.1.layer_ref).config.name) = some "forward_x"
    ∧ ((Bidirectional.init [LayerObj.from_config "LSTM" ⟨"x", false, false, false, []⟩]
        0 (some "concat") none).toOption.bind
        (fun p => (Bidirectional.from_config (Bidirectional.get_config p.2 p.1)).toOption.map
          (fun q => (Heap.get q.2 q.1.layer_ref).config.name)))
        = some "forward_forward_x"
    ∧ ("forward_forward_x" : String) ≠ "forward_x"
    ∧ ("forward_forward_x" : String) ≠ "x" := by
  refine ⟨?_, ?_, by decide, by decide⟩ <;> rfl

/-- C3 amended: `from_config(get_config(...))` round-trips a
`TimeDistributed` wrapper exactly (the reconstructed inner layer has the
same class and configuration), and round-trips a `Bidirectional` wrapper up
to the inner layer's name: the merge mode and the inner layer's class are
preserved, and the reconstructed inner layer's configuration equals the
original wrapper's inner layer configuration except that its name carries
one additional `forward_` prefix. -/
theorem c3_roundtrip_amended (L : LayerObj) (h : Heap) (tref : Nat) (mm : Option String)
    (w : Option (List Nat)) (htref : tref < h.length)
    (hm : mm ∈ ([some "sum", some "mul", some "ave", some "concat", none] :
      List (Option String))) :
    ((TimeDistributed.from_config (TimeDistributed.get_config
        (TimeDistributed.init L))).layer.config = L.config
      ∧ (TimeDistributed.from_config (TimeDistributed.get_config
          (TimeDistributed.init L))).layer.class_name = L.class_name)
    ∧ ∀ b : Bidirectional, ∀ h1 : Heap,
        Bidirectional.init h tref mm w = Except.ok (b, h1) →
        ∃ b2 : Bidirectional, ∃ h2 : Heap,
          Bidirectional.from_config (Bidirectional.get_config h1 b) = Except.ok (b2, h2)
          ∧ b2.merge_mode = b.merge_mode
          ∧ (Heap.get h2 b2.layer_ref).class_name = (Heap.get h1 b.layer_ref).class_name
          ∧ (Heap.get h2 b2.layer_ref).config
              = { (Heap.get h1 b.layer_ref).config with
                  name := "forward_" ++ (Heap.get h1 b.layer_ref).config.name } := by
  constructor
  · exact ⟨rfl, rfl⟩
  · intro b h1 hinit
    rw [bidirectional_init_ok h tref mm w hm] at hinit
    injection hinit with hpair
    injection hpair with hb hh
    subst hb
    subst hh
    dsimp only
    rw [heap_get_set_append_self _ _ _ _ htref]
    unfold Bidirectional.get_config Bidirectional.from_config
    dsimp only
    rw [heap_get_set_append_self _ _ _ _ htref]
    refine ⟨_, _, bidirectional_init_ok _ 0 mm none hm, rfl, ?_, ?_⟩
    · dsimp only
      rw [heap_get_set_append_self _ _ _ _ (by simp)]
      simp [forwardObj_class, Heap.get, List.getD, LayerObj.from_config]
    · dsimp only
      rw [heap_get_set_append_self _ _ _ _ (by simp)]
      simp [forwardObj_config, Heap.get, List.getD, LayerObj.from_config]

/-- C3 amended witness: the theorem instantiated at a concrete inner layer
(`Dense` named `"d"`) for the `TimeDistributed` half and at a concrete
one-layer heap with a template named `"x"` and merge mode `concat` for the
`Bidirectional` half. -/
theorem c3_roundtrip_amended_witness :
    (0 < ([LayerObj.from_config "LSTM" ⟨"x", false, false, false, []⟩] : Heap).length
      ∧ (some "concat") ∈ ([some "sum", some "mul", some "ave", some "concat", none] :
          List (Option String)))
    ∧ ((TimeDistributed.from_config (TimeDistributed.get_config
          (TimeDistributed.init (LayerObj.from_config "Dense"
            ⟨"d", false, false, false, []⟩)))).layer.config
          = (LayerObj.from_config "Dense" ⟨"d", false, false, false, []⟩).config
        ∧ (TimeDistributed.from_config (TimeDistributed.get_config
            (TimeDistributed.init (LayerObj.from_config "Dense"
              ⟨"d", false, false, false, []⟩)))).layer.class_name
            = (LayerObj.from_config "Dense" ⟨"d", false, false, false, []⟩).class_name)
    ∧ ∀ b : Bidirectional, ∀ h1 : Heap,
        Bidirectional.init [LayerObj.from_config "LSTM" ⟨"x", false, false, false, []⟩]
            0 (some "concat") none = Except.ok (b, h1) →
        ∃ b2 : Bidirectional, ∃ h2 : Heap,
          Bidirectional.from_config (Bidirectional.get_config h1 b) = Except.ok (b2, h2)
          ∧ b2.merge_mode = b.merge_mode
          ∧ (Heap.get h2 b2.layer_ref).class_name = (Heap.get h1 b.layer_ref).class_name
          ∧ (Heap.get h2 b2.layer_ref).config
              = { (Heap.get h1 b.layer_ref).config with
                  name := "forward_" ++ (Heap.get h1 b.layer_ref).config.name } :=
  ⟨⟨by decide, by decide⟩,
    (c3_roundtrip_amended (LayerObj.from_config "Dense" ⟨"d", false, false, false, []⟩)
      [LayerObj.from_config "LSTM" ⟨"x", false, false, false, []⟩]
      0 (some "concat") none (by decide) (by decide)).1,
    (c3_roundtrip_amended (LayerObj.from_config "Dense" ⟨"d", false, false, false, []⟩)
      [LayerObj.from_config "LSTM" ⟨"x", false, false, false, []⟩]
      0 (some "concat") none (by decide) (by decide)).2⟩

/-- A backend tensor of rank 1, 2 or 3 (the ranks the mask and merge logic
of this module touches), with rational entries so that the `ave` merge's
division by two is exact. -/
inductive Tensor where
  | r1 : List Rat → Tensor
  | r2 : List (List Rat) → Tensor
  | r3 : List (List (List Rat)) → Tensor
deriving DecidableEq, Repr

/-- The rank of a tensor. -/
def Tensor.rank : Tensor → Nat
  | Tensor.r1 _ => 1
  | Tensor.r2 _ => 2
  | Tensor.r3 _ => 3

/-- Elementwise combination of two tensors of equal rank; `none` models the
backend broadcasting error on a rank mismatch. -/
def Tensor.zipWith (g : Rat → Rat → Rat) : Tensor → Tensor → Option Tensor
  | Tensor.r1 a, Tensor.r1 b => some (Tensor.r1 (List.zipWith g a b))
  | Tensor.r2 a, Tensor.r2 b => some (Tensor.r2 (List.zipWith (List.zipWith g) a b))
  | Tensor.r3 a, Tensor.r3 b =>
    some (Tensor.r3 (List.zipWith (List.zipWith (List.zipWith g)) a b))
  | _, _ => none

/-- Entrywise map (used for the scalar division in the `ave` merge). -/
def Tensor.map (g : Rat → Rat) : Tensor → Tensor
  | Tensor.r1 a => Tensor.r1 (a.map g)
  | Tensor.r2 a => Tensor.r2 (a.map (List.map g))
  | Tensor.r3 a => Tensor.r3 (a.map (List.map (List.map g)))

/-- Concatenation of two tensors along the last axis; `none` models the
backend error on a rank or leading-dimension mismatch. -/
def cat2 : Tensor → Tensor → Option Tensor
  | Tensor.r1 a, Tensor.r1 b => some (Tensor.r1 (a ++ b))
  | Tensor.r2 a, Tensor.r2 b =>
    if a.length = b.length then
      some (Tensor.r2 (List.zipWith (fun x y => x ++ y) a b))
    else none
  | Tensor.r3 a, Tensor.r3 b =>
    if a.length = b.length ∧ a.map List.length = b.map List.length then
      some (Tensor.r3 (List.zipWith (List.zipWith (fun x y => x ++ y)) a b))
    else none
  | _, _ => none

/-- Embeds the backend primitive `K.concatenate(tensors)` with its keras
default axis `-1`: the tensors are joined along their last axis.  `none`
models a backend error (empty argument list or incompatible shapes). -/
def K.concatenate (ts : List Tensor) : Option Tensor :=
  match ts with
  | [] => none
  | t :: rest => rest.foldlM cat2 t

/-- Elementwise product down the rows of a rank-2 block (the columnwise
product). -/
def prodRows (rows : List (List Rat)) : List Rat :=
  match rows with
  | [] => []
  | r :: rs => rs.foldl (List.zipWith (fun x y => x * y)) r

/-- Elementwise product down the slices of a rank-3 block. -/
def prodSlices (slices : List (List (List Rat))) : List (List Rat) :=
  match slices with
  | [] => []
  | r :: rs => rs.foldl (List.zipWith (List.zipWith (fun x y => x * y))) r

/-- Embeds the backend primitive `K.prod(x, axis=0)`: the product along the
first axis, dropping it.  (On a rank-1 tensor the true result is a rank-0
scalar, which this rank-1/2/3 model renders as a singleton rank-1 tensor;
no claim exercises that case.) -/
def K.prodAxis0 : Tensor → Tensor
  | Tensor.r1 a => Tensor.r1 [a.foldr (fun x y => x * y) 1]
  | Tensor.r2 a => Tensor.r1 (prodRows a)
  | Tensor.r3 a => Tensor.r2 (prodSlices a)

/-- Embeds the backend primitive `K.reverse(x, 1)`: reversal along axis 1.
(A rank-1 tensor has no axis 1 and the backend would fail; the model returns
the tensor unchanged, and no claim exercises that case.) -/
def K.reverse1 : Tensor → Tensor
  | Tensor.r1 a => Tensor.r1 a
  | Tensor.r2 a => Tensor.r2 (a.map List.reverse)
  | Tensor.r3 a => Tensor.r3 (a.map List.reverse)

/-- The `input_mask` argument of `TimeDistributed.compute_mask`: either a
single mask (possibly absent) or a list of masks. -/
inductive MaskArg where
  | single : Option Tensor → MaskArg
  | list : List (Option Tensor) → MaskArg
deriving DecidableEq, Repr

/-- Checks that every entry of the argument list handed to the backend is an
actual tensor, collecting them; a `None` entry gives `none` (the backend
rejects non-tensor arguments). -/
def allSome : List (Option Tensor) → Option (List Tensor)
  | [] => some []
  | none :: _ => none
  | some t :: rest => (allSome rest).map (fun ts => t :: ts)

/-- Embeds `TimeDistributed.compute_mask` (wrappers.py lines 164-175).  A
non-list argument is returned unchanged.  For a list, Python's
`not any(input_mask)` is true exactly when every entry is `None` (an absent
mask is falsy; a present mask is a backend tensor object, which is truthy).
With exactly one present mask that mask is returned.  Otherwise the source
passes the WHOLE list `input_mask` - `None` entries included - to
`K.concatenate` and takes `K.prod(..., axis=0)` of the result; a `None`
entry or a shape mismatch is a backend error, modelled as `Except.error`. -/
def TimeDistributed.compute_mask (input_mask : MaskArg) : Except String (Option Tensor) :=
  match input_mask with
  | MaskArg.single m => Except.ok m
  | MaskArg.list ms =>
    if ms.all (fun m => m = none) then Except.ok none
    else
      let not_None_masks := ms.filterMap id
      if not_None_masks.length = 1 then Except.ok not_None_masks.head?
      else
        match allSome ms with
        | none => Except.error "concatenate applied to a non-tensor entry"
        | some ts =>
          match K.concatenate ts with
          | none => Except.error "concatenate shape mismatch"
          | some t => Except.ok (some (K.prodAxis0 t))

/-- The mask combination the claim describes: stack the masks along a new
leading axis and take the product along that new axis (for 0/1 masks, the
elementwise logical AND).  Rank-1 masks stack into a rank-2 tensor, rank-2
masks into a rank-3 tensor; mixed ranks fail. -/
def stackNewAxis (ts : List Tensor) : Option Tensor :=
  match ts.mapM (fun t => match t with | Tensor.r1 a => some a | _ => none) with
  | some rows => some (Tensor.r2 rows)
  | none =>
    match ts.mapM (fun t => match t with | Tensor.r2 a => some a | _ => none) with
    | some blocks => some (Tensor.r3 blocks)
    | none => none

/-- The claimed elementwise-AND combination: stacking followed by the
product along the new axis. -/
def specMaskAnd (ts : List Tensor) : Option Tensor :=
  (stackNewAxis ts).map K.prodAxis0

/-- C6 counterexample: two present rank-2 masks `[[1, 0]]` and `[[1, 1]]`
(one batch row, two timesteps).  `compute_mask` concatenates them along the
last axis into `[[1, 0, 1, 1]]` and takes the product along axis 0, giving
the rank-1 tensor `[1, 0, 1, 1]` - not the elementwise logical AND
`[[1, 0]]` (stack-and-product along the new axis), which is rank 2.  The
claim is false at this input. -/
theorem c6_compute_mask_counterexample :
    TimeDistributed.compute_mask (MaskArg.list
        [some (Tensor.r2 [[1, 0]]), some (Tensor.r2 [[1, 1]])])
      = Except.ok (some (Tensor.r1 [1, 0, 1, 1]))
    ∧ specMaskAnd [Tensor.r2 [[1, 0]], Tensor.r2 [[1, 1]]]
      = some (Tensor.r2 [[1, 0]])
    ∧ Tensor.r1 [1, 0, 1, 1] ≠ Tensor.r2 [[1, 0]]
    ∧ (Tensor.r1 [1, 0, 1, 1]).rank = 1 ∧ (Tensor.r2 [[1, 0]]).rank = 2 := by
  refine ⟨rfl, ?_, by decide, rfl, rfl⟩
  have hstep : specMaskAnd [Tensor.r2 [[1, 0]], Tensor.r2 [[1, 1]]]
      = some (Tensor.r2 [[(1 : Rat) * 1, 0 * 1]]) := rfl
  rw [hstep]
  norm_num

theorem filterMap_id_eq_nil_of_all_none (ms : List (Option Tensor))
    (h : ∀ x ∈ ms, x = none) : ms.filterMap id = [] := by
  induction ms with
  | nil => rfl
  | cons x xs ih =>
    have hx := h x (List.mem_cons_self _ _)
    subst hx
    simpa [List.filterMap_cons] using ih (fun y hy => h y (List.mem_cons_of_mem _ hy))

theorem allSome_eq_none_of_mem_none (ms : List (Option Tensor)) (h : none ∈ ms) :
    allSome ms = none := by
  induction ms with
  | nil => simp at h
  | cons x xs ih =>
    cases x with
    | none => rfl
    | some t =>
      rcases List.mem_cons.mp h with h1 | h2
      · cases h1
      · simp [allSome, ih h2]

/-- C6 amended: `TimeDistributed.compute_mask` returns a single (non-list)
mask argument unchanged; given a list of masks all of which are absent it
returns no mask; given a list whose present masks number exactly one it
returns that mask; but given a list with two or more present masks it does
NOT form their elementwise logical AND: it fails if any entry of the list is
absent (the whole list, `None`s included, is passed to the backend
concatenation), and otherwise - shown here for two rank-2 `(batch, time)`
masks with equal batch size - it concatenates the masks along the last
(time) axis and returns the columnwise product along axis 0, a rank-1
tensor over the concatenated time axis. -/
theorem c6_compute_mask_amended (m : Option Tensor) (ms0 ms1 ms2 : List (Option Tensor))
    (m1 : Tensor) (a b : List (List Rat)) (hab : a.length = b.length) :
    TimeDistributed.compute_mask (MaskArg.single m) = Except.ok m
    ∧ ((∀ x ∈ ms0, x = none) →
        TimeDistributed.compute_mask (MaskArg.list ms0) = Except.ok none)
    ∧ (ms1.filterMap id = [m1] →
        TimeDistributed.compute_mask (MaskArg.list ms1) = Except.ok (some m1))
    ∧ (2 ≤ (ms2.filterMap id).length → none ∈ ms2 →
        ∃ e, TimeDistributed.compute_mask (MaskArg.list ms2) = Except.error e)
    ∧ (TimeDistributed.compute_mask (MaskArg.list [some (Tensor.r2 a), some (Tensor.r2 b)])
        = Except.ok (some (Tensor.r1 (prodRows (List.zipWith (fun x y => x ++ y) a b))))
      ∧ ∀ t : Tensor,
          TimeDistributed.compute_mask (MaskArg.list [some (Tensor.r2 a), some (Tensor.r2 b)])
            = Except.ok (some t) → t.rank = 1) := by
  refine ⟨rfl, ?_, ?_, ?_, ?_⟩
  · intro h0
    have hall : ms0.all (fun x => x = none) = true := List.all_eq_true.mpr (by simpa using h0)
    simp [TimeDistributed.compute_mask, hall]
  · intro h1
    have hall : ms1.all (fun x => x = none) = false := by
      cases hc : ms1.all (fun x => x = none) with
      | false => rfl
      | true =>
        have := filterMap_id_eq_nil_of_all_none ms1 (by simpa using List.all_eq_true.mp hc)
        rw [h1] at this
        cases this
    simp [TimeDistributed.compute_mask, hall, h1]
  · intro h2 hmem
    have hall : ms2.all (fun x => x = none) = false := by
      cases hc : ms2.all (fun x => x = none) with
      | false => rfl
      | true =>
        have := filterMap_id_eq_nil_of_all_none ms2 (by simpa using List.all_eq_true.mp hc)
        rw [this] at h2
        simp at h2
    have hlen1 : ((ms2.filterMap id).length = 1) = False := by
      simp only [eq_iff_iff, iff_false]
      omega
    refine ⟨"concatenate applied to a non-tensor entry", ?_⟩
    simp [TimeDistributed.compute_mask, hall, hlen1, allSome_eq_none_of_mem_none ms2 hmem]
  · have hA : TimeDistributed.compute_mask
        (MaskArg.list [some (Tensor.r2 a), some (Tensor.r2 b)])
        = Except.ok (some (Tensor.r1 (prodRows (List.zipWith (fun x y => x ++ y) a b)))) := by
      simp [TimeDistributed.compute_mask, List.filterMap_cons, allSome,
        K.concatenate, List.foldlM, cat2, hab, K.prodAxis0]
    refine ⟨hA, ?_⟩
    intro t ht
    rw [hA] at ht
    have h1 := Option.some.inj (Except.ok.inj ht)
    rw [← h1]
    rfl

/-- C6 amended witness: the theorem instantiated at the single mask `None`,
the all-absent list `[None, None]`, the one-present list
`[None, r1 [1, 0]]`, the failing list `[r2 [[1]], None, r2 [[1]]]` (two
present masks plus an absent entry), and the two present rank-2 masks
`[[1, 0]]` and `[[0, 1]]`. -/
theorem c6_compute_mask_amended_witness :
    ((∀ x ∈ ([none, none] : List (Option Tensor)), x = none)
      ∧ ([none, some (Tensor.r1 [1, 0])] : List (Option Tensor)).filterMap id
          = [Tensor.r1 [1, 0]]
      ∧ 2 ≤ (([some (Tensor.r2 [[1]]), none, some (Tensor.r2 [[1]])] :
          List (Option Tensor)).filterMap id).length
      ∧ none ∈ ([some (Tensor.r2 [[1]]), none, some (Tensor.r2 [[1]])] :
          List (Option Tensor))
      ∧ ([[1, 0]] : List (List Rat)).length = ([[0, 1]] : List (List Rat)).length)
    ∧ TimeDistributed.compute_mask (MaskArg.single (some (Tensor.r1 [1, 0])))
        = Except.ok (some (Tensor.r1 [1, 0]))
    ∧ TimeDistributed.compute_mask (MaskArg.list [none, none]) = Except.ok none
    ∧ TimeDistributed.compute_mask (MaskArg.list [none, some (Tensor.r1 [1, 0])])
        = Except.ok (some (Tensor.r1 [1, 0]))
    ∧ (∃ e, TimeDistributed.compute_mask
        (MaskArg.list [some (Tensor.r2 [[1]]), none, some (Tensor.r2 [[1]])])
          = Except.error e)
    ∧ TimeDistributed.compute_mask
        (MaskArg.list [some (Tensor.r2 [[1, 0]]), some (Tensor.r2 [[0, 1]])])
        = Except.ok (some (Tensor.r1 (prodRows
            (List.zipWith (fun x y => x ++ y) [[1, 0]] [[0, 1]])))) :=
  ⟨⟨by decide, by decide, by decide, by decide, by decide⟩,
    (c6_compute_mask_amended (some (Tensor.r1 [1, 0])) [none, none]
      [none, some (Tensor.r1 [1, 0])] [some (Tensor.r2 [[1]]), none, some (Tensor.r2 [[1]])]
      (Tensor.r1 [1, 0]) [[1, 0]] [[0, 1]] (by decide)).1,
    (c6_compute_mask_amended (some (Tensor.r1 [1, 0])) [none, none]
      [none, some (Tensor.r1 [1, 0])] [some (Tensor.r2 [[1]]), none, some (Tensor.r2 [[1]])]
      (Tensor.r1 [1, 0]) [[1, 0]] [[0, 1]] (by decide)).2.1 (by decide),
    (c6_compute_mask_amended (some (Tensor.r1 [1, 0])) [none, none]
      [none, some (Tensor.r1 [1, 0])] [some (Tensor.r2 [[1]]), none, some (Tensor.r2 [[1]])]
      (Tensor.r1 [1, 0]) [[1, 0]] [[0, 1]] (by decide)).2.2.1 (by decide),
    (c6_compute_mask_amended (some (Tensor.r1 [1, 0])) [none, none]
      [none, some (Tensor.r1 [1, 0])] [some (Tensor.r2 [[1]]), none, some (Tensor.r2 [[1]])]
      (Tensor.r1 [1, 0]) [[1, 0]] [[0, 1]] (by decide)).2.2.2.1 (by decide) (by decide),
    (c6_compute_mask_amended (some (Tensor.r1 [1, 0])) [none, none]
      [none, some (Tensor.r1 [1, 0])] [some (Tensor.r2 [[1]]), none, some (Tensor.r2 [[1]])]
      (Tensor.r1 [1, 0]) [[1, 0]] [[0, 1]] (by decide)).2.2.2.2.1⟩

/-- Embeds `Bidirectional.call` (wrappers.py lines 293-307).  `fwd` and
`bwd` are the forward and backward layers' `call` methods (external
recurrent computations); both are applied to the same, unreversed input `X`
with the same mask.  When `return_sequences` holds, the backward output is
reversed along the time axis (`K.reverse(Y_rev, 1)`).  The merge modes
produce one tensor (`Sum.inl`, with `none` for a backend shape error in
`concat` and for the fall-through on a merge mode that `__init__` would
have rejected) or the uncombined pair (`Sum.inr`) for merge mode `None`;
`ave` divides the elementwise sum by the scalar 2. -/
def Bidirectional.call (fwd bwd : Tensor → Option Tensor → Tensor)
    (return_sequences : Bool) (merge_mode : Option String)
    (X : Tensor) (mask : Option Tensor) : Option (Tensor ⊕ (Tensor × Tensor)) :=
  let Y := fwd X mask
  let Y_rev0 := bwd X mask
  let Y_rev := if return_sequences then K.reverse1 Y_rev0 else Y_rev0
  if merge_mode = some "concat" then
    (K.concatenate [Y, Y_rev]).map Sum.inl
  else if merge_mode = some "sum" then
    (Tensor.zipWith (fun x y => x + y) Y Y_rev).map Sum.inl
  else if merge_mode = some "ave" then
    (Tensor.zipWith (fun x y => x + y) Y Y_rev).map
      (fun t => Sum.inl (t.map (fun v => v / 2)))
  else if merge_mode = some "mul" then
    (Tensor.zipWith (fun x y => x * y) Y Y_rev).map Sum.inl
  else if merge_mode = none then
    some (Sum.inr (Y, Y_rev))
  else
    none

/-- The elementwise mean of two tensors, as the claim describes the `ave`
merge. -/
def elementwiseMean (a b : Tensor) : Option Tensor :=
  Tensor.zipWith (fun x y => (x + y) / 2) a b

theorem listMean1 (a b : List Rat) :
    (List.zipWith (fun x y => x + y) a b).map (fun v => v / 2)
      = List.zipWith (fun x y => (x + y) / 2) a b := by
  rw [List.map_zipWith]

theorem listMean2 (a b : List (List Rat)) :
    (List.zipWith (List.zipWith (fun x y => x + y)) a b).map (List.map (fun v => v / 2))
      = List.zipWith (List.zipWith (fun x y => (x + y) / 2)) a b := by
  induction a generalizing b with
  | nil => simp
  | cons x xs ih =>
    cases b with
    | nil => simp
    | cons y ys => simp [List.zipWith_cons_cons, listMean1, ih]

theorem listMean3 (a b : List (List (List Rat))) :
    (List.zipWith (List.zipWith (List.zipWith (fun x y => x + y))) a b).map
        (List.map (List.map (fun v => v / 2)))
      = List.zipWith (List.zipWith (List.zipWith (fun x y => (x + y) / 2))) a b := by
  induction a generalizing b with
  | nil => simp
  | cons x xs ih =>
    cases b with
    | nil => simp
    | cons y ys => simp [List.zipWith_cons_cons, listMean2, ih]

theorem tensor_mean_eq (a b : Tensor) :
    (Tensor.zipWith (fun x y => x + y) a b).map (Tensor.map (fun v => v / 2))
      = elementwiseMean a b := by
  cases a <;> cases b <;>
    simp [Tensor.zipWith, Tensor.map, elementwiseMean, listMean1, listMean2, listMean3]

theorem concatenate_pair (a b : Tensor) : K.concatenate [a, b] = cat2 a b := by
  cases hc : cat2 a b <;> simp [K.concatenate, List.foldlM, hc]

/-- C7: `Bidirectional.call` applies the forward and backward layers to the
same unreversed input `X` (with the same mask); the backward output is
reversed along the time axis exactly when `return_sequences` holds (the
common subterm `Z` below); and the two outputs are combined as concatenation
along the last axis for `concat`, elementwise sum for `sum`, elementwise
mean for `ave`, elementwise product for `mul`, and the uncombined pair
`(forward, backward)` for merge mode `None`. -/
theorem c7_bidirectional_call_merge (fwd bwd : Tensor → Option Tensor → Tensor)
    (rs : Bool) (X : Tensor) (mask : Option Tensor) :
    (Bidirectional.call fwd bwd rs (some "concat") X mask
        = (cat2 (fwd X mask)
            (if rs then K.reverse1 (bwd X mask) else bwd X mask)).map Sum.inl)
    ∧ (Bidirectional.call fwd bwd rs (some "sum") X mask
        = (Tensor.zipWith (fun x y => x + y) (fwd X mask)
            (if rs then K.reverse1 (bwd X mask) else bwd X mask)).map Sum.inl)
    ∧ (Bidirectional.call fwd bwd rs (some "ave") X mask
        = (elementwiseMean (fwd X mask)
            (if rs then K.reverse1 (bwd X mask) else bwd X mask)).map Sum.inl)
    ∧ (Bidirectional.call fwd bwd rs (some "mul") X mask
        = (Tensor.zipWith (fun x y => x * y) (fwd X mask)
            (if rs then K.reverse1 (bwd X mask) else bwd X mask)).map Sum.inl)
    ∧ (Bidirectional.call fwd bwd rs none X mask
        = some (Sum.inr (fwd X mask,
            if rs then K.reverse1 (bwd X mask) else bwd X mask))) := by
  refine ⟨?_, ?_, ?_, ?_, ?_⟩
  · simp [Bidirectional.call, concatenate_pair]
  · simp [Bidirectional.call]
  · rw [← tensor_mean_eq]
    simp [Bidirectional.call, Option.map_map]
    rfl
  · simp [Bidirectional.call]
  · simp [Bidirectional.call]

/-- Truthiness of a shape entry in Python: `None` and `0` are falsy, any
positive size is truthy (`not input_shape[1]`). -/
def dimTruthy : Dim → Bool
  | none => false
  | some n => n != 0

/-- The error message raised by `TimeDistributed.get_output` under the
TensorFlow backend when the sequence length is not statically known
(wrappers.py lines 128-136). -/
def tdTimestepsError : String :=
  "When using TensorFlow, you should define explicitly the number of timesteps of your sequences.\nIf your first layer is an Embedding, make sure to pass it an \"input_length\" argument. Otherwise, make sure the first layer has an \"input_shape\" or \"batch_input_shape\" argument, including the time axis."

/-- Embeds the backend-dependent shape check of `TimeDistributed.get_output`
(wrappers.py lines 120-141): under the `tensorflow` backend, a falsy
declared sequence-axis entry (`input_shape[1]`) raises; otherwise the method
proceeds (the remainder of `get_output` - fetching the input and building
the child layer - involves only external collaborators and raises no
error). -/
def timeDistributedOutputLengthCheck (backend : String) (input_shape : Shape) :
    Except String Unit :=
  if backend = "tensorflow" then
    if dimTruthy (input_shape.getD 1 none) = false then
      Except.error tdTimestepsError
    else
      Except.ok ()
  else
    Except.ok ()

/-- C9: for a declared input shape of rank >= 2 whose sequence-axis entry is
either unknown (`None`) or a known positive length (shape entries are
optional positive sizes), running under the TensorFlow backend fails with
the explanatory error exactly when the sequence length is unknown; under any
other backend no error is raised. -/
theorem c9_timedistributed_tf_timesteps_error (s : Shape) (d : Dim)
    (hs : s[1]? = some d) (hd : d = none ∨ ∃ k : Nat, d = some (k + 1)) :
    (timeDistributedOutputLengthCheck "tensorflow" s = Except.error tdTimestepsError
      ↔ d = none)
    ∧ (∀ backend : String, backend ≠ "tensorflow" →
        timeDistributedOutputLengthCheck backend s = Except.ok ()) := by
  have hget : s[1]?.getD none = d := by
    rw [hs]
    rfl
  constructor
  · rcases hd with hnone | ⟨k, hpos⟩
    · subst hnone
      simp [timeDistributedOutputLengthCheck, dimTruthy, hget]
    · subst hpos
      simp [timeDistributedOutputLengthCheck, dimTruthy, hget]
  · intro backend hb
    simp [timeDistributedOutputLengthCheck, hb]

/-- C9 witness: the theorem instantiated at the shapes `(None, None, 16)`
(unknown sequence length: the TensorFlow check fails) and, through a second
application, `(None, 10, 16)` (known sequence length 10: no error), plus a
non-TensorFlow backend on the first shape. -/
theorem c9_timedistributed_tf_timesteps_error_witness :
    (([none, none, some 16] : Shape)[1]? = some none
      ∧ ([none, some 10, some 16] : Shape)[1]? = some (some 10))
    ∧ timeDistributedOutputLengthCheck "tensorflow" [none, none, some 16]
        = Except.error tdTimestepsError
    ∧ timeDistributedOutputLengthCheck "tensorflow" [none, some 10, some 16]
        ≠ Except.error tdTimestepsError
    ∧ timeDistributedOutputLengthCheck "theano" [none, none, some 16] = Except.ok () :=
  by
  refine ⟨⟨by decide, by decide⟩, ?_, ?_, ?_⟩
  · exact (c9_timedistributed_tf_timesteps_error [none, none, some 16] none
      (by decide) (Or.inl rfl)).1.mpr rfl
  · intro hc
    exact absurd ((c9_timedistributed_tf_timesteps_error [none, some 10, some 16] (some 10)
      (by decide) (Or.inr ⟨9, rfl⟩)).1.mp hc) (by decide)
  · exact (c9_timedistributed_tf_timesteps_error [none, none, some 16] none
      (by decide) (Or.inl rfl)).2 "theano" (by decide)
